import Mathlib

/-!
Shallow embedding of the ThreatScope AI single-page dashboard
(`src/Threat Scope AI/index.tsx`): the content-dispatch pipeline
(`processFile` + the payload assembly in `analyzeEmail`), the response
binder (`analyzeEmail`'s success / failure state updates), the quiz
scoring (`handleGuess`), the reset action, and the geolocation component
(`ThreatMap`).  Strings are modelled by Lean `String`; JavaScript
`split(",")` by `List.splitOn` on the character list; `FileReader.readAsDataURL`
by an explicit base64 encoder over the character codes of the content
(faithful for the ASCII contents considered here).
-/

namespace ThreatScope

/-- The standard base64 alphabet, as a character list. -/
def base64Table : List Char :=
  "ABCDEFGHIJKLMNOPQRSTUVWXYZabcdefghijklmnopqrstuvwxyz0123456789+/".toList

/-- The base64 digit for a 6-bit value. -/
def b64Char (n : Nat) : Char := base64Table.getD (n % 64) 'A'

/-- Standard base64 encoding of a byte list, three bytes at a time with
`=` padding. -/
def base64Chunks : List Nat → List Char
  | [] => []
  | [a] => [b64Char (a / 4), b64Char (a % 4 * 16), '=', '=']
  | [a, b] => [b64Char (a / 4), b64Char (a % 4 * 16 + b / 16), b64Char (b % 16 * 4), '=']
  | a :: b :: c :: rest =>
      b64Char (a / 4) :: b64Char (a % 4 * 16 + b / 16) ::
      b64Char (b % 16 * 4 + c / 64) :: b64Char (c % 64) :: base64Chunks rest

/-- Base64 encoding of a string (byte values taken as the character codes,
which agrees with UTF-8 on ASCII content). -/
def base64Encode (s : String) : String :=
  String.mk (base64Chunks (s.toList.map Char.toNat))

/-- JavaScript `s.endsWith(t)`, modelled on character lists. -/
def strEndsWith (s t : String) : Bool := t.toList.isSuffixOf s.toList

/-- JavaScript `s.split(",")`: the comma-separated segments of `s`. -/
def jsSplitComma (s : String) : List String :=
  (s.toList.splitOn ',').map (fun l => String.mk l)

/-- The three verdict severities of the analysis schema. -/
inductive Verdict where
  | Clean
  | Suspicious
  | Malicious
deriving DecidableEq

/-- The `simple_analysis` block of `AnalysisResult`. -/
structure SimpleAnalysis where
  explanation : String
deriving DecidableEq

/-- The `recommendations` block of `AnalysisResult` (`do` is a Lean keyword,
hence the quoted field name). -/
structure Recommendations where
  «do» : List String
  dont : List String
deriving DecidableEq

/-- The `expert_analysis` block of `AnalysisResult`. -/
structure ExpertAnalysis where
  technical_summary : String
  mitre_attack_ids : List String
  spf_dkim_dmarc_status : String
deriving DecidableEq

/-- The `sender_metadata` block of `AnalysisResult`. -/
structure SenderMetadata where
  ip_address : String
  estimated_country : String
  is_vpn_or_proxy : Bool
deriving DecidableEq

/-- The `headers` block of `AnalysisResult` (`from` is a Lean keyword,
hence the quoted field name). -/
structure AnalysisHeaders where
  «from» : String
  return_path : String
  subject : String
deriving DecidableEq

/-- The `AnalysisResult` record of the source: the nine top-level fields
bound into view state after a successful analysis. -/
structure AnalysisResult where
  verdict : Verdict
  confidence_score : Nat
  simple_analysis : SimpleAnalysis
  recommendations : Recommendations
  expert_analysis : ExpertAnalysis
  sender_metadata : SenderMetadata
  headers : AnalysisHeaders
  red_flags : List String
  attacker_replication_code : String
deriving DecidableEq

/-- The `QuizScenario` record of the source. -/
structure QuizScenario where
  is_phishing : Bool
  sender : String
  subject : String
  body : String
  clues : String
deriving DecidableEq

/-- An uploaded file as the browser hands it to `processFile`: its name,
its declared MIME type (`""` when the browser reports none), and its
decoded text content. -/
structure SourceFile where
  name : String
  type : String
  text : String
deriving DecidableEq

/-- `processFile`'s text test:
`file.name.endsWith('.eml') || file.name.endsWith('.txt') || file.type === 'text/plain'`. -/
def isTextFile (f : SourceFile) : Bool :=
  strEndsWith f.name ".eml" || strEndsWith f.name ".txt" || f.type == "text/plain"

/-- `FileReader.readAsDataURL`: a data URL carrying the file's declared
type and the base64 encoding of its bytes. -/
def readAsDataURL (f : SourceFile) : String :=
  "data:" ++ f.type ++ ";base64," ++ base64Encode f.text

/-- The content `processFile` loads: the decoded text for text files
(`readAsText`), a data URL otherwise (`readAsDataURL`). -/
def loadedContent (f : SourceFile) : String :=
  if isTextFile f then f.text else readAsDataURL f

/-- The MIME type `processFile` reports to `onFileLoaded`:
`file.type || (isText ? 'text/plain' : 'application/octet-stream')`. -/
def recordedMime (f : SourceFile) : String :=
  if f.type == "" then
    (if isTextFile f then "text/plain" else "application/octet-stream")
  else f.type

/-- The request payload assembled by `analyzeEmail`: either the content
string itself, or an `inlineData` part with a MIME tag and an optional
base64 body (`none` models JavaScript `undefined` from `split(",")[1]`). -/
inductive Payload where
  | text (s : String)
  | inlineData (mimeType : String) (data : Option String)
deriving DecidableEq

/-- The dispatch decision of `analyzeEmail`: binary `inlineData` when the
stored MIME type is truthy and differs from `text/plain` and
`message/rfc822`, the raw content string otherwise. -/
def dispatchPayload (fileContent : String) (fileMimeType : Option String) : Payload :=
  match fileMimeType with
  | some m =>
      if m != "" && m != "text/plain" && m != "message/rfc822" then
        Payload.inlineData m ((jsSplitComma fileContent).get? 1)
      else Payload.text fileContent
  | none => Payload.text fileContent

/-- The full upload-to-request pipeline: `processFile` loads the content
and records the MIME type, then `analyzeEmail` assembles the payload. -/
def pipelinePayload (f : SourceFile) : Payload :=
  dispatchPayload (loadedContent f) (some (recordedMime f))

/-- The `App` component's state hooks. `none` models a `null` (or, for
`fileContent`, a never-set) React state value. -/
structure AppState where
  fileContent : Option String
  fileMimeType : Option String
  fileName : Option String
  analysis : Option AnalysisResult
  isLoading : Bool
  error : Option String
  isAnalystMode : Bool
  showQuiz : Bool
deriving DecidableEq

/-- JavaScript truthiness of a nullable string: `null` and `""` are falsy. -/
def strTruthy : Option String → Bool
  | none => false
  | some s => s != ""

/-- The outcome of one `generateContent` call in `analyzeEmail`:
the promise rejected, `response.text` was falsy, `JSON.parse` threw,
or a record was parsed. -/
inductive AnalysisOutcome where
  | networkFailure
  | emptyText
  | parseFailure
  | parsed (r : AnalysisResult)
deriving DecidableEq

/-- The static failure message set by `analyzeEmail`'s catch block. -/
def analysisFailureMessage : String :=
  "Analysis failed. Please check your API key or file format."

/-- The state `analyzeEmail` leaves behind, as a function of the state at
the click and the call's outcome: the guard on falsy `fileContent`, then
`setIsLoading(true); setError(null); setAnalysis(null)`, then either
`setAnalysis(JSON.parse(text))` or the catch block's `setError(...)`,
and `setIsLoading(false)` in `finally`. -/
def analyzeEmailStep (s : AppState) (o : AnalysisOutcome) : AppState :=
  if !strTruthy s.fileContent then
    { s with error := some "No file content detected." }
  else
    let s1 := { s with isLoading := true, error := none, analysis := none }
    match o with
    | AnalysisOutcome.parsed r => { s1 with analysis := some r, isLoading := false }
    | _ => { s1 with error := some analysisFailureMessage, isLoading := false }

/-- The reset action behind the "Analyze Another File" button:
`setAnalysis(null); setFileContent(null); setFileName(null)`. -/
def resetAnalysis (s : AppState) : AppState :=
  { s with analysis := none, fileContent := none, fileName := none }

/-- The two values of the quiz round-result hook. -/
inductive RoundResult where
  | correct
  | wrong
deriving DecidableEq

/-- The `QuizModal` component's state hooks. -/
structure QuizState where
  quizData : Option QuizScenario
  loading : Bool
  result : Option RoundResult
  score : Nat
deriving DecidableEq

/-- `handleGuess`: no-op without a scenario; otherwise judge the guess by
strict equality against `is_phishing`, record the round result, and bump
the score only on a correct guess. -/
def handleGuess (isPhishingGuess : Bool) (s : QuizState) : QuizState :=
  match s.quizData with
  | none => s
  | some q =>
      let isCorrect := isPhishingGuess == q.is_phishing
      { s with
        result := some (if isCorrect then RoundResult.correct else RoundResult.wrong),
        score := if isCorrect then s.score + 1 else s.score }

/-- The fields of an `ipapi.co` response that `ThreatMap` consumes.
`latitude`/`longitude` are `none` when absent from the body; `ok`
models `res.ok`. -/
structure GeoResponse where
  ok : Bool
  latitude : Option ℚ
  longitude : Option ℚ
  city : String
  country_code : String
  org : String
deriving DecidableEq

/-- One geolocation fetch attempt: the promise rejected (network error or
an unreadable body), or a response arrived. -/
inductive FetchResult where
  | rejected
  | response (r : GeoResponse)
deriving DecidableEq

/-- The `ThreatMap` component's state hooks. -/
structure MapState where
  geoData : Option GeoResponse
  loading : Bool
deriving DecidableEq

/-- JavaScript truthiness of a nullable number field: absent and `0` are
falsy. -/
def numTruthy : Option ℚ → Bool
  | none => false
  | some x => x != 0

/-- The guard of `ThreatMap`'s effect:
`if (!ip || ip === "N/A" || ip === "127.0.0.1") return`. -/
def shouldFetchGeo (ip : String) : Bool :=
  !(ip == "" || ip == "N/A" || ip == "127.0.0.1")

/-- One run of `ThreatMap`'s effect for the given IP: the Boolean says
whether a lookup was issued at all. On a non-ok response the code throws
into the catch block; `geoData` is stored only when both coordinates are
truthy; `finally` clears `loading`. -/
def threatMapStep (ip : String) (f : FetchResult) (s : MapState) : Bool × MapState :=
  if shouldFetchGeo ip then
    match f with
    | FetchResult.rejected => (true, { s with loading := false })
    | FetchResult.response r =>
        if !r.ok then (true, { s with loading := false })
        else if numTruthy r.latitude && numTruthy r.longitude then
          (true, { geoData := some r, loading := false })
        else (true, { s with loading := false })
  else (false, s)

/-- The map's center: the stored coordinates, or the `[20, 0]` default. -/
def mapCenter (s : MapState) : ℚ × ℚ :=
  match s.geoData with
  | some g => (g.latitude.getD 0, g.longitude.getD 0)
  | none => (20, 0)

/-- The map's zoom: `10` with stored coordinates, the default `2` otherwise. -/
def mapZoom (s : MapState) : Nat :=
  match s.geoData with
  | some _ => 10
  | none => 2

/-- `ThreatMap`'s state before any fetch has completed. -/
def mapStateAtMount : MapState := { geoData := none, loading := false }

/-- Whether a fetch attempt counts as failed: rejection, a non-ok
response, or a body without truthy coordinates. -/
def geoFetchFailed (f : FetchResult) : Bool :=
  match f with
  | FetchResult.rejected => true
  | FetchResult.response r => !r.ok || !(numTruthy r.latitude && numTruthy r.longitude)

/-- The analyst view renders `ThreatMap` beside the bound analysis: a geo
fetch inside `ThreatMap` updates only the map's own state, never the
`App` state holding the analysis. -/
def analystGeoStep (app : AppState) (ms : MapState) (ip : String) (f : FetchResult) :
    AppState × MapState :=
  (app, (threatMapStep ip f ms).2)

/-! Helper lemmas about strings, base64 and comma splitting. -/

theorem toList_append (s t : String) : (s ++ t).toList = s.toList ++ t.toList := by
  cases s
  cases t
  rfl

theorem mk_toList (s : String) : String.mk s.toList = s := by
  cases s
  rfl

theorem toList_mk (l : List Char) : (String.mk l).toList = l := rfl

theorem b64Char_ne_comma (n : Nat) : b64Char n ≠ ',' := by
  have h : n % 64 < 64 := Nat.mod_lt _ (by omega)
  unfold b64Char
  set k := n % 64 with hk
  interval_cases k <;> decide

theorem comma_ne_b64Char (n : Nat) : ¬ ((',' : Char) = b64Char n) :=
  fun h => b64Char_ne_comma n h.symm

theorem comma_ne_pad : ¬ ((',' : Char) = '=') := by decide

theorem comma_not_mem_base64Chunks (bs : List Nat) : ¬ ((',' : Char) ∈ base64Chunks bs) := by
  induction bs using base64Chunks.induct <;>
    simp_all [base64Chunks, comma_ne_b64Char, comma_ne_pad]

theorem comma_not_mem_base64Encode (s : String) : ¬ ((',' : Char) ∈ (base64Encode s).toList) := by
  rw [base64Encode, toList_mk]
  exact comma_not_mem_base64Chunks _

theorem splitOn_comma_surround (l₁ l₂ : List Char)
    (h1 : (',' : Char) ∉ l₁) (h2 : (',' : Char) ∉ l₂) :
    (l₁ ++ ',' :: l₂).splitOn ',' = [l₁, l₂] := by
  have hp1 : ∀ x ∈ l₁, ¬ ((x == ',') = true) := by
    intro x hx h
    rw [beq_iff_eq] at h
    subst h
    exact h1 hx
  have hp2 : ∀ x ∈ l₂, ¬ ((x == ',') = true) := by
    intro x hx h
    rw [beq_iff_eq] at h
    subst h
    exact h2 hx
  show (l₁ ++ ',' :: l₂).splitOnP (· == ',') = [l₁, l₂]
  rw [List.splitOnP_first _ _ hp1 ',' (by simp) l₂, List.splitOnP_eq_single _ _ hp2]

theorem readAsDataURL_toList (f : SourceFile) :
    (readAsDataURL f).toList =
      ("data:" ++ f.type ++ ";base64").toList ++ ',' :: (base64Encode f.text).toList := by
  unfold readAsDataURL
  have hmark : (";base64," : String).toList = (";base64" : String).toList ++ [','] := by decide
  simp only [toList_append, hmark, List.append_assoc, List.cons_append, List.nil_append]

theorem jsSplitComma_readAsDataURL (f : SourceFile) (h : (',' : Char) ∉ f.type.toList) :
    jsSplitComma (readAsDataURL f) =
      [String.mk ("data:" ++ f.type ++ ";base64").toList, base64Encode f.text] := by
  unfold jsSplitComma
  rw [readAsDataURL_toList]
  have hh : (',' : Char) ∉ ("data:" ++ f.type ++ ";base64").toList := by
    simp only [toList_append, List.mem_append]
    rintro ((hc | hc) | hc)
    · revert hc
      decide
    · exact h hc
    · revert hc
      decide
  rw [splitOn_comma_surround _ _ hh (comma_not_mem_base64Encode f.text)]
  simp [mk_toList]

theorem isTextFile_false_of (f : SourceFile)
    (h1 : strEndsWith f.name ".eml" = false)
    (h2 : strEndsWith f.name ".txt" = false)
    (h3 : f.type ≠ "text/plain") :
    isTextFile f = false := by
  simp only [isTextFile, h1, h2, Bool.false_or]
  exact beq_eq_false_iff_ne.mpr h3

theorem recordedMime_of_nonempty (f : SourceFile) (h : f.type ≠ "") :
    recordedMime f = f.type := by
  simp [recordedMime, beq_eq_false_iff_ne.mpr h]

theorem dispatchPayload_some_binary (content m : String)
    (h : (m != "" && m != "text/plain" && m != "message/rfc822") = true) :
    dispatchPayload content (some m) =
      Payload.inlineData m ((jsSplitComma content).get? 1) := by
  simp only [dispatchPayload, h, if_true]

theorem dispatchPayload_some_text (content m : String)
    (h : (m != "" && m != "text/plain" && m != "message/rfc822") = false) :
    dispatchPayload content (some m) = Payload.text content := by
  simp only [dispatchPayload, h, Bool.false_eq_true, if_false]

/-- Claim C2 (amended): for every input file declared `text/plain`, and
every file declared `message/rfc822` whose name ends in `.eml` or `.txt`,
the dispatcher submits the file's literal decoded text unmodified as the
request payload, with no base64 transformation applied. (A
`message/rfc822` file with another suffix is loaded by `processFile` as a
base64 data URL, and that data URL string is what the text branch
submits.) -/
theorem dispatch_text_literal (f : SourceFile)
    (h : f.type = "text/plain" ∨
         (f.type = "message/rfc822" ∧
           (strEndsWith f.name ".eml" = true ∨ strEndsWith f.name ".txt" = true))) :
    pipelinePayload f = Payload.text f.text := by
  have hit : isTextFile f = true := by
    rcases h with h | ⟨_, h | h⟩ <;> simp [isTextFile, h]
  have hcontent : loadedContent f = f.text := by
    simp [loadedContent, hit]
  rcases h with h | ⟨h, _⟩ <;>
    · have hmime : recordedMime f = f.type := recordedMime_of_nonempty f (by rw [h]; decide)
      unfold pipelinePayload
      rw [hcontent, hmime, h]
      exact dispatchPayload_some_text _ _ (by decide)

/-- Witness for C2 at a concrete `text/plain` file. -/
theorem dispatch_text_literal_witness :
    pipelinePayload ⟨"message.txt", "text/plain", "hello there"⟩ =
      Payload.text "hello there" :=
  dispatch_text_literal ⟨"message.txt", "text/plain", "hello there"⟩ (Or.inl rfl)

/-- Counterexample to C2 as stated: a file declared `message/rfc822` but
named `mail.msg` is read by `processFile` with `readAsDataURL`, so the
text branch of `analyzeEmail` submits the base64 data URL, not the
literal decoded text `"hi"`. -/
theorem dispatch_rfc822_submits_data_url :
    pipelinePayload ⟨"mail.msg", "message/rfc822", "hi"⟩ =
      Payload.text "data:message/rfc822;base64,aGk=" ∧
    pipelinePayload ⟨"mail.msg", "message/rfc822", "hi"⟩ ≠ Payload.text "hi" := by
  decide

/-- Claim C3 (amended): for every input file whose name ends in neither
`.eml` nor `.txt` and whose declared MIME type is nonempty, comma-free,
and neither `text/plain` nor `message/rfc822`, the dispatcher strips
exactly the data-URL header (the portion up to the comma) from the loaded
content and submits the remaining base64 payload as inline binary data
tagged with the file's original MIME type. (For a file whose name ends in
`.eml`/`.txt` but whose declared type is binary, the content is loaded as
plain text and the binary branch finds no data-URL header to strip.) -/
theorem dispatch_binary_strips_header (f : SourceFile)
    (h1 : strEndsWith f.name ".eml" = false)
    (h2 : strEndsWith f.name ".txt" = false)
    (h3 : f.type ≠ "")
    (h4 : f.type ≠ "text/plain")
    (h5 : f.type ≠ "message/rfc822")
    (h6 : (',' : Char) ∉ f.type.toList) :
    pipelinePayload f = Payload.inlineData f.type (some (base64Encode f.text)) := by
  have hit : isTextFile f = false := isTextFile_false_of f h1 h2 h4
  have hcontent : loadedContent f = readAsDataURL f := by
    simp [loadedContent, hit]
  have hmime : recordedMime f = f.type := recordedMime_of_nonempty f h3
  have hcond : (f.type != "" && f.type != "text/plain" && f.type != "message/rfc822") = true := by
    simp [bne, beq_eq_false_iff_ne.mpr h3, beq_eq_false_iff_ne.mpr h4,
      beq_eq_false_iff_ne.mpr h5]
  unfold pipelinePayload
  rw [hcontent, hmime, dispatchPayload_some_binary _ _ hcond, jsSplitComma_readAsDataURL f h6]
  rfl

/-- Witness for C3 at a concrete PDF upload. -/
theorem dispatch_binary_strips_header_witness :
    pipelinePayload ⟨"doc.pdf", "application/pdf", "hi"⟩ =
      Payload.inlineData "application/pdf" (some (base64Encode "hi")) :=
  dispatch_binary_strips_header ⟨"doc.pdf", "application/pdf", "hi"⟩
    (by decide) (by decide) (by decide) (by decide) (by decide) (by decide)

/-- Counterexample to C3 as stated: a file named `notes.txt` declared
`application/pdf` is loaded as plain text (the name test wins in
`processFile`), yet dispatched down the binary branch, where
`split(",")[1]` of the comma-free text is `undefined`: no data-URL header
is stripped and no base64 payload is submitted. -/
theorem dispatch_binary_text_named_no_payload :
    pipelinePayload ⟨"notes.txt", "application/pdf", "hello"⟩ =
      Payload.inlineData "application/pdf" none := by
  decide

/-- Claim C8: a file named with the `.eml` suffix, containing only the
text `"Subject: test"`, declared `text/plain`, yields the literal request
payload `"Subject: test"` with no base64 transformation. -/
theorem eml_subject_test_payload :
    pipelinePayload ⟨"sample.eml", "text/plain", "Subject: test"⟩ =
      Payload.text "Subject: test" := by
  decide

/-! Concrete fixtures for counterexamples and witnesses. -/

/-- A concrete well-formed analysis record. -/
def sampleResult : AnalysisResult :=
  { verdict := Verdict.Malicious
    confidence_score := 95
    simple_analysis := { explanation := "This message tries to trick you." }
    recommendations := { «do» := ["Delete it."], dont := ["Do not click the link."] }
    expert_analysis := { technical_summary := "Spoofed sender domain."
                         mitre_attack_ids := ["T1566"]
                         spf_dkim_dmarc_status := "SPF fail" }
    sender_metadata := { ip_address := "203.0.113.9"
                         estimated_country := "Unknown"
                         is_vpn_or_proxy := true }
    headers := { «from» := "a@example.com"
                 return_path := "b@example.com"
                 subject := "Invoice" }
    red_flags := ["urgency"]
    attacker_replication_code := "print(1)" }

/-- An app state with a loaded file and no bound result, as after a fresh
upload. -/
def freshState : AppState :=
  { fileContent := some "Subject: test"
    fileMimeType := some "text/plain"
    fileName := some "sample.eml"
    analysis := none
    isLoading := false
    error := none
    isAnalystMode := false
    showQuiz := false }

/-- An app state still holding a previously bound result. -/
def samplePrevState : AppState :=
  { freshState with analysis := some sampleResult }

/-- Claim C1 (amended): for every submission that passes the content
guard and whose reply is empty or fails JSON deserialization, the
completed state binds no analysis record (`null`) — which equals the
pre-submission state exactly when that state held no result, the only
case reachable through the interface, since the submit control renders
only while no result is bound — and the error indicator is the static
failure message. -/
theorem analyzeEmail_failure_clears_analysis (s : AppState) (o : AnalysisOutcome)
    (hc : strTruthy s.fileContent = true)
    (ho : o = AnalysisOutcome.emptyText ∨ o = AnalysisOutcome.parseFailure) :
    (analyzeEmailStep s o).analysis = none ∧
    (analyzeEmailStep s o).error = some analysisFailureMessage ∧
    (s.analysis = none → (analyzeEmailStep s o).analysis = s.analysis) := by
  have h1 : (analyzeEmailStep s o).analysis = none := by
    rcases ho with h | h <;> subst h <;> simp [analyzeEmailStep, hc]
  have h2 : (analyzeEmailStep s o).error = some analysisFailureMessage := by
    rcases ho with h | h <;> subst h <;> simp [analyzeEmailStep, hc]
  exact ⟨h1, h2, fun h => h1.trans h.symm⟩

/-- Witness for C1 at a fresh state and an unparsable reply. -/
theorem analyzeEmail_failure_clears_analysis_witness :
    (analyzeEmailStep freshState AnalysisOutcome.parseFailure).analysis = none ∧
    (analyzeEmailStep freshState AnalysisOutcome.parseFailure).error =
      some analysisFailureMessage ∧
    (freshState.analysis = none →
      (analyzeEmailStep freshState AnalysisOutcome.parseFailure).analysis =
        freshState.analysis) :=
  analyzeEmail_failure_clears_analysis freshState AnalysisOutcome.parseFailure
    (by decide) (Or.inr rfl)

/-- Counterexample to C1 as stated: when a previously bound result is
still present, a failed submission does not leave it unchanged —
`analyzeEmail` clears the bound result to `null` before the call and the
failure path never restores it. -/
theorem analyzeEmail_failure_overwrites_prev_result :
    (analyzeEmailStep samplePrevState AnalysisOutcome.emptyText).analysis ≠
      samplePrevState.analysis ∧
    (analyzeEmailStep samplePrevState AnalysisOutcome.emptyText).error =
      some analysisFailureMessage := by
  decide

/-- Claim C4: when the declared MIME type is empty, the recorded type is
`text/plain` exactly when the filename ends in `.eml` or `.txt`, and
`application/octet-stream` otherwise. -/
theorem recordedMime_empty_type (f : SourceFile) (h : f.type = "") :
    recordedMime f =
      (if strEndsWith f.name ".eml" || strEndsWith f.name ".txt" then "text/plain"
       else "application/octet-stream") := by
  have hb : (("" : String) == "text/plain") = false := by decide
  simp [recordedMime, isTextFile, h, hb]

/-- Witness for C4: an `.eml` file and a `.bin` file, both with an empty
declared type. -/
theorem recordedMime_empty_type_witness :
    recordedMime ⟨"archive.eml", "", "x"⟩ = "text/plain" ∧
    recordedMime ⟨"payload.bin", "", "x"⟩ = "application/octet-stream" :=
  ⟨(recordedMime_empty_type ⟨"archive.eml", "", "x"⟩ rfl).trans (by decide),
   (recordedMime_empty_type ⟨"payload.bin", "", "x"⟩ rfl).trans (by decide)⟩

/-- Claim C5: with a loaded scenario, a round is judged correct exactly
when the guess strictly equals `is_phishing`; the score goes up by one on
a match and is unchanged otherwise. -/
theorem handleGuess_strict_equality (s : QuizState) (q : QuizScenario) (guess : Bool)
    (h : s.quizData = some q) :
    ((handleGuess guess s).result = some RoundResult.correct ↔ guess = q.is_phishing) ∧
    ((handleGuess guess s).result = some RoundResult.wrong ↔ guess ≠ q.is_phishing) ∧
    (guess = q.is_phishing → (handleGuess guess s).score = s.score + 1) ∧
    (guess ≠ q.is_phishing → (handleGuess guess s).score = s.score) := by
  by_cases hg : guess = q.is_phishing
  · simp [handleGuess, h, hg]
  · have hb : (guess == q.is_phishing) = false := beq_eq_false_iff_ne.mpr hg
    simp [handleGuess, h, hb, hg]

/-- A concrete quiz scenario and quiz state mid-session. -/
def sampleScenario : QuizScenario :=
  { is_phishing := true
    sender := "it-desk@example.com"
    subject := "Password reset required"
    body := "Click here within 24 hours."
    clues := "Urgency and a generic sender." }

/-- A quiz state holding `sampleScenario` with two points scored. -/
def sampleQuizState : QuizState :=
  { quizData := some sampleScenario
    loading := false
    result := none
    score := 2 }

/-- Witness for C5: guessing phishing on a phishing scenario is judged
correct and scores one point. -/
theorem handleGuess_strict_equality_witness :
    (handleGuess true sampleQuizState).result = some RoundResult.correct ∧
    (handleGuess true sampleQuizState).score = sampleQuizState.score + 1 :=
  have h := handleGuess_strict_equality sampleQuizState sampleScenario true rfl
  ⟨h.1.mpr (by decide), h.2.2.1 (by decide)⟩

/-- Claim C6: a reply parsed as an `AnalysisResult` record is bound whole
into the view state: all nine top-level fields arrive without loss or
renaming. -/
theorem binder_binds_all_fields (s : AppState) (r : AnalysisResult)
    (hc : strTruthy s.fileContent = true) :
    (analyzeEmailStep s (AnalysisOutcome.parsed r)).analysis = some r ∧
    ∃ bound, (analyzeEmailStep s (AnalysisOutcome.parsed r)).analysis = some bound ∧
      bound.verdict = r.verdict ∧
      bound.confidence_score = r.confidence_score ∧
      bound.simple_analysis = r.simple_analysis ∧
      bound.recommendations = r.recommendations ∧
      bound.expert_analysis = r.expert_analysis ∧
      bound.sender_metadata = r.sender_metadata ∧
      bound.headers = r.headers ∧
      bound.red_flags = r.red_flags ∧
      bound.attacker_replication_code = r.attacker_replication_code := by
  have h : (analyzeEmailStep s (AnalysisOutcome.parsed r)).analysis = some r := by
    simp [analyzeEmailStep, hc]
  exact ⟨h, r, h, rfl, rfl, rfl, rfl, rfl, rfl, rfl, rfl, rfl⟩

/-- Witness for C6 at a fresh state and a concrete record. -/
theorem binder_binds_all_fields_witness :
    (analyzeEmailStep freshState (AnalysisOutcome.parsed sampleResult)).analysis =
      some sampleResult :=
  (binder_binds_all_fields freshState sampleResult (by decide)).1

/-! Shared helpers about the map's failure behaviour. -/

theorem threatMapStep_failed_geoData (ip : String) (f : FetchResult)
    (hf : geoFetchFailed f = true) :
    (threatMapStep ip f mapStateAtMount).2.geoData = none := by
  by_cases hip : shouldFetchGeo ip = true
  · cases f with
    | rejected => simp [threatMapStep, hip, mapStateAtMount]
    | response r =>
        by_cases hok : r.ok = true
        · have hco : (numTruthy r.latitude && numTruthy r.longitude) = false := by
            have hd : numTruthy r.latitude = false ∨ numTruthy r.longitude = false := by
              simpa [geoFetchFailed, hok] using hf
            rcases hd with h | h <;> simp [h]
          simp [threatMapStep, hip, hok, hco, mapStateAtMount]
        · have hok' : r.ok = false := by
            revert hok
            cases r.ok <;> simp
          simp [threatMapStep, hip, hok', mapStateAtMount]
  · have hip' : shouldFetchGeo ip = false := by
      revert hip
      cases shouldFetchGeo ip <;> simp
    simp [threatMapStep, hip', mapStateAtMount]

theorem mapCenter_of_none (s : MapState) (h : s.geoData = none) : mapCenter s = (20, 0) := by
  simp [mapCenter, h]

theorem mapZoom_of_none (s : MapState) (h : s.geoData = none) : mapZoom s = 2 := by
  simp [mapZoom, h]

/-- Claim C7: a failed geolocation lookup (rejection, non-ok response, or
unusable body) leaves the bound analysis untouched — the map effect never
writes `App` state — and the map shows its default fallback of center
`[20, 0]` and zoom `2`. -/
theorem geo_failure_degrades_map_only (app : AppState) (ip : String) (f : FetchResult)
    (hf : geoFetchFailed f = true) :
    (analystGeoStep app mapStateAtMount ip f).1 = app ∧
    (analystGeoStep app mapStateAtMount ip f).1.analysis = app.analysis ∧
    (analystGeoStep app mapStateAtMount ip f).2.geoData = none ∧
    mapCenter (analystGeoStep app mapStateAtMount ip f).2 = (20, 0) ∧
    mapZoom (analystGeoStep app mapStateAtMount ip f).2 = 2 := by
  have hmap : (threatMapStep ip f mapStateAtMount).2.geoData = none :=
    threatMapStep_failed_geoData ip f hf
  exact ⟨rfl, rfl, hmap, mapCenter_of_none _ hmap, mapZoom_of_none _ hmap⟩

/-- Witness for C7 at a rejected fetch for a public IP. -/
theorem geo_failure_degrades_map_only_witness :
    (analystGeoStep samplePrevState mapStateAtMount "203.0.113.9" FetchResult.rejected).1 =
      samplePrevState ∧
    mapCenter
      (analystGeoStep samplePrevState mapStateAtMount "203.0.113.9" FetchResult.rejected).2 =
      (20, 0) ∧
    mapZoom
      (analystGeoStep samplePrevState mapStateAtMount "203.0.113.9" FetchResult.rejected).2 = 2 :=
  have h := geo_failure_degrades_map_only samplePrevState "203.0.113.9"
    FetchResult.rejected (by decide)
  ⟨h.1, h.2.2.2.1, h.2.2.2.2⟩

/-- Claim C9: the "Analyze Another File" reset clears the analysis, the
file content and the file name to `null`, and leaves the stored MIME
type, the mode toggle, the error message, the quiz-modal flag and the
in-flight flag unchanged. -/
theorem resetAnalysis_frame (s : AppState) :
    (resetAnalysis s).analysis = none ∧
    (resetAnalysis s).fileContent = none ∧
    (resetAnalysis s).fileName = none ∧
    (resetAnalysis s).fileMimeType = s.fileMimeType ∧
    (resetAnalysis s).isAnalystMode = s.isAnalystMode ∧
    (resetAnalysis s).error = s.error ∧
    (resetAnalysis s).showQuiz = s.showQuiz ∧
    (resetAnalysis s).isLoading = s.isLoading :=
  ⟨rfl, rfl, rfl, rfl, rfl, rfl, rfl, rfl⟩

/-- Claim C10: the map component issues no lookup for an empty, `"N/A"`
or `"127.0.0.1"` IP string, and accepts a response only when both
coordinates are truthy, so a latitude or longitude equal to `0` is
treated as absent and the default world view stands. -/
theorem threatMap_guard_and_truthiness (ip : String) (f : FetchResult) (s : MapState)
    (r : GeoResponse) :
    ((ip = "" ∨ ip = "N/A" ∨ ip = "127.0.0.1") → threatMapStep ip f s = (false, s)) ∧
    (r.ok = true → (r.latitude = some 0 ∨ r.longitude = some 0) →
      ((threatMapStep ip (FetchResult.response r) mapStateAtMount).2.geoData = none ∧
       mapCenter (threatMapStep ip (FetchResult.response r) mapStateAtMount).2 = (20, 0) ∧
       mapZoom (threatMapStep ip (FetchResult.response r) mapStateAtMount).2 = 2)) := by
  constructor
  · intro h
    have hip : shouldFetchGeo ip = false := by
      rcases h with h | h | h <;> subst h <;> decide
    simp [threatMapStep, hip]
  · intro hok hz
    have hfail : geoFetchFailed (FetchResult.response r) = true := by
      rcases hz with h | h <;> simp [geoFetchFailed, hok, numTruthy, h]
    have hmap := threatMapStep_failed_geoData ip (FetchResult.response r) hfail
    exact ⟨hmap, mapCenter_of_none _ hmap, mapZoom_of_none _ hmap⟩

/-- A concrete ok response sitting exactly on the equator. -/
def equatorResponse : GeoResponse :=
  { ok := true
    latitude := some 0
    longitude := some 12
    city := "Somewhere"
    country_code := "XX"
    org := "ExampleNet" }

/-- Witness for C10: no lookup for `"N/A"`, and an equator response is
discarded, leaving the default world view. -/
theorem threatMap_guard_and_truthiness_witness :
    threatMapStep "N/A" FetchResult.rejected mapStateAtMount = (false, mapStateAtMount) ∧
    (threatMapStep "8.8.8.8" (FetchResult.response equatorResponse) mapStateAtMount).2.geoData =
      none ∧
    mapCenter
      (threatMapStep "8.8.8.8" (FetchResult.response equatorResponse) mapStateAtMount).2 =
      (20, 0) :=
  have h := threatMap_guard_and_truthiness "8.8.8.8" FetchResult.rejected mapStateAtMount
    equatorResponse
  have h1 := (threatMap_guard_and_truthiness "N/A" FetchResult.rejected mapStateAtMount
    equatorResponse).1 (Or.inr (Or.inl rfl))
  have h2 := h.2 (by decide) (Or.inl (by decide))
  ⟨h1, h2.1, h2.2.1⟩

end ThreatScope
